import Mathlib

/-!
Formal model of the zero-trust access decision engine and SOAR playbook
executor implemented in
`security/advanced/zero_trust_architecture.py`.

Modelling conventions:
* Python `float` values are embedded as exact rationals (`ℚ`); the numeric
  literals in the source (0.2, 0.4, ...) are all decimal and are mapped to
  the corresponding rationals.
* Python `dict`s whose keys are strings are embedded as association lists
  (`List (String × α)`); `d[k]`/`d.get(k)` becomes a first-match lookup
  (`alGet`) and `d[k] = v` becomes `alSet`, which replaces the binding in
  place or appends a fresh one, exactly mirroring insertion-order
  semantics of Python dicts as far as lookups are concerned.
* `np.sqrt(e) < c` comparisons on distances are embedded as `e < c^2`
  (square both sides); this is exact since `sqrt` is monotone and all
  thresholds in the source are nonnegative.
* The fitted `IsolationForest` of `BehavioralAnalytics` is not embeddable
  (it is a trained floating-point ML model); its `decision_function` and
  `predict` outputs are modelled as abstract oracle fields of the engine
  state (`anomalyDecision`, `anomalyPredict`).  Everything wrapped around
  them (the profile lookup, the `(1 - s) / 2` post-processing and the
  clamping) is embedded exactly.
* `pyotp.TOTP(...).verify(code)` is likewise time-dependent and is
  modelled as an abstract oracle `totpOracle : secret → code → Bool`.
* The random `event_id` attached to the logged `SecurityEvent` is outside
  every claim and is not part of the modelled evaluation result.
-/

/-- First-match lookup in an association list, mirroring Python
`d.get(k)` / `k in d`. -/
def alGet {α : Type} : List (String × α) → String → Option α
  | [], _ => none
  | (k', v) :: t, k => if k' = k then some v else alGet t k

/-- Update of an association list, mirroring Python `d[k] = v`:
an existing binding is replaced in place, a new key is appended. -/
def alSet {α : Type} : List (String × α) → String → α → List (String × α)
  | [], k, v => [(k, v)]
  | (k', v') :: t, k, v =>
    if k' = k then (k, v) :: t else (k', v') :: alSet t k v

/-- Values stored in the JSON-ish parameter dictionaries handed to SOAR
actuators. -/
inductive PValue : Type
  | str (s : String)
  | int (n : Int)
  | bool (b : Bool)
deriving DecidableEq

/-- Python truthiness of an optional parameter value, used by the
actuators' `if parameters.get(...)` guards (`None`, `""`, `0` and
`False` are falsy). -/
def pvTruthy : Option PValue → Bool
  | none => false
  | some (PValue.str s) => s ≠ ""
  | some (PValue.int n) => n ≠ 0
  | some (PValue.bool b) => b

/-- Parameter dictionary (string-keyed). -/
abbrev Params : Type := List (String × PValue)

/-- Python dict merge `{**a, **b}`: a key present in both maps to `b`'s
value.  Only lookup behaviour matters to the actuators, so the merge is
embedded as concatenation with `b`'s bindings shadowing `a`'s under
`alGet`. -/
def dict_merge (a b : Params) : Params := b ++ a

/-- Result dictionary returned by a SOAR actuator. -/
structure ActionResult : Type where
  success : Bool
  message : String
deriving DecidableEq

/-- Actuator `SOAREngine._block_ip`: succeeds iff `source_ip` is present
and truthy. -/
def block_ip (p : Params) : ActionResult :=
  if pvTruthy (alGet p "source_ip") then ⟨true, "blocked"⟩
  else ⟨false, "No IP address provided"⟩

/-- Actuator `SOAREngine._quarantine_device`: succeeds iff `device_id`
is present and truthy. -/
def quarantine_device (p : Params) : ActionResult :=
  if pvTruthy (alGet p "device_id") then ⟨true, "quarantined"⟩
  else ⟨false, "No device ID provided"⟩

/-- Actuator `SOAREngine._disable_user`: succeeds iff `user_id` is
present and truthy. -/
def disable_user (p : Params) : ActionResult :=
  if pvTruthy (alGet p "user_id") then ⟨true, "disabled"⟩
  else ⟨false, "No user ID provided"⟩

/-- Actuator `SOAREngine._send_alert`: always succeeds. -/
def send_alert (_ : Params) : ActionResult := ⟨true, "Alert sent successfully"⟩

/-- Actuator `SOAREngine._collect_forensics`: succeeds iff `device_id`
is present and truthy. -/
def collect_forensics (p : Params) : ActionResult :=
  if pvTruthy (alGet p "device_id") then ⟨true, "forensics collected"⟩
  else ⟨false, "No device ID provided"⟩

/-- Actuator `SOAREngine._escalate_incident`: succeeds iff `incident_id`
is present and truthy. -/
def escalate_incident (p : Params) : ActionResult :=
  if pvTruthy (alGet p "incident_id") then ⟨true, "escalated"⟩
  else ⟨false, "No incident ID provided"⟩

/-- The `SOAREngine.response_actions` registry mapping action
identifiers to actuator functions. -/
def response_actions (a : String) : Option (Params → ActionResult) :=
  if a = "block_ip" then some block_ip
  else if a = "quarantine_device" then some quarantine_device
  else if a = "disable_user" then some disable_user
  else if a = "send_alert" then some send_alert
  else if a = "collect_forensics" then some collect_forensics
  else if a = "escalate_incident" then some escalate_incident
  else none

/-- One playbook step: name, action identifier, configured parameters
and the optional `stop_on_failure` flag (`none` models an absent key;
the source reads it with `step.get('stop_on_failure', True)`). -/
structure PlaybookStep : Type where
  name : String
  action : String
  parameters : Params
  stop_on_failure : Option Bool

/-- Per-step result recorded by `execute_playbook`. -/
structure StepResult : Type where
  step : String
  action : String
  success : Bool
deriving DecidableEq

/-- The parameter dictionary handed to the actuator by
`SOAREngine._execute_step`: `merged_params = {**parameters, **incident_data}`. -/
def step_merged_params (step : PlaybookStep) (incident_data : Params) : Params :=
  dict_merge step.parameters incident_data

/-- `SOAREngine._execute_step`: resolve the action identifier in the
registry, call the actuator on the merged parameters, and report the
step outcome; an unknown action yields a failed step result. -/
def execute_step (step : PlaybookStep) (incident_data : Params) : StepResult :=
  let merged := step_merged_params step incident_data
  match response_actions step.action with
  | some f => ⟨step.name, step.action, (f merged).success⟩
  | none => ⟨step.name, step.action, false⟩

/-- The step loop of `SOAREngine.execute_playbook`: every executed step's
result is appended; after a failed step whose `stop_on_failure` flag is
true (default true) the loop breaks. -/
def run_steps : List PlaybookStep → Params → List StepResult
  | [], _ => []
  | step :: rest, incident =>
    let r := execute_step step incident
    if ¬ r.success ∧ step.stop_on_failure.getD true then [r]
    else r :: run_steps rest incident

/-- Overall result of `SOAREngine.execute_playbook`. -/
structure PlaybookResult : Type where
  results : List StepResult
  overall_success : Bool
deriving DecidableEq

/-- `SOAREngine.execute_playbook` on a resolved playbook (the named
lookup in `self.playbooks` is outside the claims): run the steps and set
`overall_success = all(r['success'] for r in results)`. -/
def execute_playbook (steps : List PlaybookStep) (incident_data : Params) :
    PlaybookResult :=
  let rs := run_steps steps incident_data
  ⟨rs, rs.all (fun r => r.success)⟩

/-- One user's behaviour profile in `BehavioralAnalytics.user_profiles`:
six bounded histories.  `login_times` and `session_durations` store
numeric stand-ins for the Python datetimes/durations (their values are
opaque to every claim), `location_patterns` stores coordinate pairs. -/
structure Profile : Type where
  login_times : List ℚ
  access_patterns : List String
  device_usage : List String
  location_patterns : List (ℚ × ℚ)
  resource_access : List String
  session_durations : List ℚ
deriving DecidableEq

/-- The fresh profile created on first update of an unknown user. -/
def emptyProfile : Profile := ⟨[], [], [], [], [], []⟩

/-- One `behavior_data` dictionary passed to `update_user_profile`;
`none` models an absent key. -/
structure BehaviorData : Type where
  login_time : Option ℚ
  access_pattern : Option String
  device_info : Option String
  location : Option (ℚ × ℚ)
  resource : Option String
  session_duration : Option ℚ

/-- Append an optional sample (`if key in behavior_data: list.append`). -/
def optAppend {α : Type} (l : List α) : Option α → List α
  | none => l
  | some x => l ++ [x]

/-- The per-key truncation at the end of `update_user_profile`:
`if len(profile[key]) > 1000: profile[key] = profile[key][-1000:]`. -/
def cap1000 {α : Type} (l : List α) : List α :=
  if l.length > 1000 then l.drop (l.length - 1000) else l

/-- `BehavioralAnalytics.update_user_profile`: create the profile if the
user is unknown, append each provided sample to the matching history,
then truncate every history to its last 1000 entries. -/
def update_user_profile (profiles : List (String × Profile)) (user_id : String)
    (bd : BehaviorData) : List (String × Profile) :=
  let p := (alGet profiles user_id).getD emptyProfile
  let p1 : Profile :=
    { login_times := optAppend p.login_times bd.login_time
      access_patterns := optAppend p.access_patterns bd.access_pattern
      device_usage := optAppend p.device_usage bd.device_info
      location_patterns := optAppend p.location_patterns bd.location
      resource_access := optAppend p.resource_access bd.resource
      session_durations := optAppend p.session_durations bd.session_duration }
  let p2 : Profile :=
    { login_times := cap1000 p1.login_times
      access_patterns := cap1000 p1.access_patterns
      device_usage := cap1000 p1.device_usage
      location_patterns := cap1000 p1.location_patterns
      resource_access := cap1000 p1.resource_access
      session_durations := cap1000 p1.session_durations }
  alSet profiles user_id p2

/-- Result of `BehavioralAnalytics.detect_anomalies`. -/
structure AnomalyResult : Type where
  anomaly_detected : Bool
  risk_score : ℚ
deriving DecidableEq

/-- A registered user (entry of `ZeroTrustEngine.user_registry`).
`mfa_enabled : Option Bool` mirrors `user.get('mfa_enabled', ...)`
(`none` models an absent key; `register_user` always sets it). -/
structure UserRecord : Type where
  email : String
  role : String
  mfa_enabled : Option Bool
  biometric_enrolled : Bool
  totp_secret : String

/-- A registered device (entry of `ZeroTrustEngine.device_registry`). -/
structure DeviceRecord : Type where
  antivirus_installed : Bool
  encryption_enabled : Bool
  os_updated : Bool
  screen_lock_enabled : Bool
  expected_locations : List (ℚ × ℚ)

/-- The `UserContext` dataclass (the fields the evaluation reads:
`time_of_access` is only ever read through `.hour`, embedded as `hour`). -/
structure Ctx : Type where
  user_id : String
  device_id : String
  source_ip : String
  location : ℚ × ℚ
  network : String
  hour : ℕ
  totp_code : Option String
deriving DecidableEq

/-- The `AccessRequest` dataclass (fields the evaluation reads). -/
structure AccessRequest : Type where
  request_id : String
  user_id : String
  resource : String
  action : String
  context : Ctx
  session_id : String

/-- An indicator-of-compromise entry of
`ThreatIntelligence.ioc_database`. -/
structure IocInfo : Type where
  threat_level : String
  description : String

/-- Result of `ThreatIntelligence.check_ioc` (`threat_level` is only
present on a match; the no-match dictionary omits it, embedded as `""`,
and no caller reads it then). -/
structure ThreatCheck : Type where
  is_ioc : Bool
  threat_level : String
  confidence : ℚ

/-- A typed access policy (entry of `ZeroTrustEngine.access_policies`,
keyed by `key`).  The source keeps conditions as strings parsed by
substring tests in `_evaluate_condition`; they are embedded as the
corresponding typed conditions (the four recognised forms plus the
fall-through `unknown`), exactly one constructor per branch of
`_evaluate_condition`. -/
inductive Cond : Type
  | riskAbove (threshold : ℚ)
  | anomalyDetected
  | roleEq (role : String)
  | mfaVerified
  | unknown
deriving DecidableEq

/-- An access policy: dictionary key, display name, conditions, action
list and priority. -/
structure Policy : Type where
  key : String
  name : String
  conditions : List Cond
  actions : List String
  priority : Int

/-- The condition-evaluation context dictionary built by
`_evaluate_policy_conditions`.  The source dict literal contains exactly
the keys `risk_score`, `user_id`, `resource`, `action`, `source_ip`,
`device_id`, `location` — it has no `role` key, so `role` is `none`
(`context.get('role')` returns `None`). -/
structure CondContext : Type where
  risk_score : ℚ
  user_id : String
  resource : String
  action : String
  source_ip : String
  device_id : String
  location : ℚ × ℚ
  role : Option String

/-- `ZeroTrustEngine._evaluate_condition` on the typed conditions:
`risk_score > t` compares against the context risk; `anomaly_detected`
and `mfa_verified` are simplified to true in the source; `role == r`
compares `context.get('role')` (which is `None` — no such key is ever
put in the context) against `r`, where Python `None == r` is false;
anything else evaluates false. -/
def evaluate_condition (c : Cond) (ctx : CondContext) : Bool :=
  match c with
  | Cond.riskAbove t => ctx.risk_score > t
  | Cond.anomalyDetected => true
  | Cond.roleEq r =>
    match ctx.role with
    | some x => x = r
    | none => false
  | Cond.mfaVerified => true
  | Cond.unknown => false

/-- `ZeroTrustEngine._evaluate_policy_conditions`: every condition must
hold (an empty list is trivially satisfied). -/
def evaluate_policy_conditions (conds : List Cond) (ctx : CondContext) : Bool :=
  conds.all (fun c => evaluate_condition c ctx)

/-- The context dictionary built by `_evaluate_policy_conditions` from
the request and risk score; the literal has no `role` key. -/
def build_cond_context (req : AccessRequest) (risk : ℚ) : CondContext :=
  { risk_score := risk
    user_id := req.user_id
    resource := req.resource
    action := req.action
    source_ip := req.context.source_ip
    device_id := req.context.device_id
    location := req.context.location
    role := none }

/-- The decision dictionary returned by `_apply_access_policies`. -/
structure Decision : Type where
  action : String
  policy : String
deriving DecidableEq

/-- A policy matches a request at a risk score when all its conditions
evaluate true in the context built by `_evaluate_policy_conditions`. -/
def policy_matches (p : Policy) (req : AccessRequest) (risk : ℚ) : Bool :=
  evaluate_policy_conditions p.conditions (build_cond_context req risk)

/-- `ZeroTrustEngine._apply_access_policies`: sort the policies
ascending by priority (Python `sorted` is stable; so is insertion sort),
return the first action of the first policy whose conditions are all
satisfied, else the fallback `challenge` decision. -/
def apply_access_policies (policies : List Policy) (req : AccessRequest)
    (risk : ℚ) : Decision :=
  let sorted := policies.insertionSort (fun a b => a.priority ≤ b.priority)
  match sorted.find? (fun p => policy_matches p req risk) with
  | some p => ⟨p.actions.headI, p.key⟩
  | none => ⟨"challenge", "default"⟩

/-- The `self.access_policies` dictionary installed by
`_setup_default_policies`, in insertion order. -/
def default_policies : List Policy :=
  [ ⟨"default", "Default Policy", [], ["challenge"], 100⟩,
    ⟨"high_risk", "High Risk Policy",
      [Cond.riskAbove 0.7, Cond.anomalyDetected], ["deny", "alert"], 1⟩,
    ⟨"admin_access", "Admin Access Policy",
      [Cond.roleEq "admin", Cond.mfaVerified], ["allow"], 10⟩ ]

/-- The scoring-relevant state of a `ZeroTrustEngine` instance: the four
stores, the installed policies, the device behaviour history, the
`iam.mfa.required_for_admins` configuration flag and the two abstract
oracles (see the header comment). -/
structure EngineState : Type where
  user_registry : List (String × UserRecord)
  device_registry : List (String × DeviceRecord)
  user_profiles : List (String × Profile)
  ioc_database : List (String × IocInfo)
  access_policies : List Policy
  device_behavior_history : List (String × List Ctx)
  required_for_admins : Bool
  totpOracle : String → String → Bool
  anomalyDecision : String → ℚ
  anomalyPredict : String → Bool

/-- `BehavioralAnalytics.detect_anomalies`: an unknown user yields
`risk_score = 0.0` with no anomaly; otherwise the fitted detector's
decision value `s` (oracle) is post-processed to
`max(0, min(1, (1 - s) / 2))` and `predict` (oracle) flags the anomaly. -/
def detect_anomalies (st : EngineState) (user_id : String) : AnomalyResult :=
  match alGet st.user_profiles user_id with
  | none => ⟨false, 0.0⟩
  | some _ =>
    ⟨st.anomalyPredict user_id,
     max 0 (min 1 ((1 - st.anomalyDecision user_id) / 2))⟩

/-- `ZeroTrustEngine._verify_mfa`: unknown users fail; users for whom
MFA is not required (the `mfa_enabled` flag, defaulting to
`required_for_admins and role == 'admin'`) pass trivially; otherwise a
falsy (absent or empty) TOTP code fails and a present code is checked
against `pyotp.TOTP(secret).verify` (oracle). -/
def verify_mfa (st : EngineState) (user_id : String) (ctx : Ctx) : Bool :=
  match alGet st.user_registry user_id with
  | none => false
  | some u =>
    if ¬ (u.mfa_enabled.getD (st.required_for_admins && u.role == "admin")) then
      true
    else
      match ctx.totp_code with
      | none => false
      | some code =>
        if code = "" then false else st.totpOracle u.totp_secret code

/-- Result dictionary of `_verify_identity` (the claims read only
`verified` and `confidence`). -/
structure IdentityVerification : Type where
  verified : Bool
  confidence : ℚ
deriving DecidableEq

/-- `ZeroTrustEngine._verify_identity`: an unknown user yields
`(False, 0.0)`; otherwise the password and biometric factors are
hard-coded true in the source, MFA is checked, confidence accumulates
0.4 (password) + 0.4 (MFA) + 0.2 (biometric), and
`verified = confidence > 0.6`. -/
def verify_identity (st : EngineState) (user_id : String) (ctx : Ctx) :
    IdentityVerification :=
  match alGet st.user_registry user_id with
  | none => ⟨false, 0.0⟩
  | some _ =>
    let password_verified := true
    let mfa_verified := verify_mfa st user_id ctx
    let biometric_verified := true
    let confidence : ℚ :=
      (if password_verified then 0.4 else 0) +
      (if mfa_verified then 0.4 else 0) +
      (if biometric_verified then 0.2 else 0)
    ⟨confidence > 0.6, confidence⟩

/-- `ZeroTrustEngine._check_device_compliance`: 0.3 antivirus + 0.3
encryption + 0.2 OS updates + 0.2 screen lock. -/
def check_device_compliance (d : DeviceRecord) : ℚ :=
  (if d.antivirus_installed then 0.3 else 0) +
  (if d.encryption_enabled then 0.3 else 0) +
  (if d.os_updated then 0.2 else 0) +
  (if d.screen_lock_enabled then 0.2 else 0)

/-- Squared Euclidean distance between two coordinate pairs; distance
comparisons in the source are embedded with both sides squared. -/
def distSq (a b : ℚ × ℚ) : ℚ :=
  (a.1 - b.1) ^ 2 + (a.2 - b.2) ^ 2

/-- `ZeroTrustEngine._check_device_location`: 0.5 when no expected
locations are configured, else score the (squared) distance to the
nearest expected location against the source's 0.01 / 0.1 / 1.0
thresholds (squared here). -/
def check_device_location (d : DeviceRecord) (current : ℚ × ℚ) : ℚ :=
  match d.expected_locations with
  | [] => 0.5
  | e :: es =>
    let m := (es.map (fun x => distSq current x)).foldl min (distSq current e)
    if m < 0.0001 then 1.0
    else if m < 0.01 then 0.8
    else if m < 1 then 0.6
    else 0.2

/-- Mean of a list of rationals (`np.mean`); every history this is
applied to by the engine is nonempty (histories are created by an
append), so the `0 / 0 = 0` convention of `ℚ` is never exercised on a
reachable state. -/
def listMean (l : List ℚ) : ℚ := l.sum / l.length

/-- `ZeroTrustEngine._check_device_behavior`: 0.5 for a device with no
recorded history; otherwise 0.4 if the (squared) distance to the mean
historical location is below 1, + 0.3 if the current network occurs in
the history, + 0.3 if the hour of access is within 4 hours of the mean
historical hour, capped at 1. -/
def check_device_behavior (st : EngineState) (device_id : String) (ctx : Ctx) : ℚ :=
  match alGet st.device_behavior_history device_id with
  | none => 0.5
  | some history =>
    let avg_lat := listMean (history.map (fun h => h.location.1))
    let avg_lon := listMean (history.map (fun h => h.location.2))
    let s1 : ℚ := if distSq ctx.location (avg_lat, avg_lon) < 1 then 0.4 else 0
    let s2 : ℚ := s1 +
      (if history.any (fun h => h.network = ctx.network) then 0.3 else 0)
    let avg_hour := listMean (history.map (fun h => (h.hour : ℚ)))
    let s3 : ℚ := s2 + (if |(ctx.hour : ℚ) - avg_hour| < 4 then 0.3 else 0)
    min 1 s3

/-- Result dictionary of `_assess_device_trust` (the claims read only
`trusted` and `score`). -/
structure DeviceTrust : Type where
  trusted : Bool
  score : ℚ
deriving DecidableEq

/-- `ZeroTrustEngine._assess_device_trust`: an unregistered device
yields `(False, 0.0)`; otherwise
`trust = compliance*0.4 + location*0.3 + behavior*0.3` and
`trusted = trust > 0.6`. -/
def assess_device_trust (st : EngineState) (device_id : String) (ctx : Ctx) :
    DeviceTrust :=
  match alGet st.device_registry device_id with
  | none => ⟨false, 0.0⟩
  | some d =>
    let compliance := check_device_compliance d
    let location := check_device_location d ctx.location
    let behavior := check_device_behavior st device_id ctx
    let trust := compliance * 0.4 + location * 0.3 + behavior * 0.3
    ⟨trust > 0.6, trust⟩

/-- Octet-prefix score of `_ip_similarity`: 0.25 per leading octet that
matches, stopping at the first mismatch. -/
def octetPrefixScore : List Int → List Int → ℚ
  | a :: as, b :: bs => if a = b then 0.25 + octetPrefixScore as bs else 0
  | _, _ => 0

/-- Parse a dotted string into integer parts (`int(x) for x in
s.split('.')`); `none` models the `ValueError` branch (which makes
`_ip_similarity` return 0).  Exotic Python `int()` inputs (whitespace,
unicode digits) are outside every claim. -/
def parseOctets (s : String) : Option (List Int) :=
  let parts := s.splitOn "."
  let nums := parts.filterMap String.toInt?
  if nums.length = parts.length then some nums else none

/-- `ThreatIntelligence._ip_similarity`. -/
def ip_similarity (ip1 ip2 : String) : ℚ :=
  match parseOctets ip1, parseOctets ip2 with
  | some p1, some p2 =>
    if p1.length ≠ 4 ∨ p2.length ≠ 4 then 0 else octetPrefixScore p1 p2
  | _, _ => 0

/-- `ThreatIntelligence.check_ioc`: an exact hit in the indicator
database is a confidence-0.9 match carrying the stored threat level; for
`ioc_type == 'ip'` a value whose similarity to a known indicator exceeds
0.8 is a confidence-0.7 match; otherwise no match (the source's no-match
dictionary has no threat level; `""` stands for the absent key). -/
def check_ioc (db : List (String × IocInfo)) (value : String)
    (ioc_type : String) : ThreatCheck :=
  match alGet db value with
  | some info => ⟨true, info.threat_level, 0.9⟩
  | none =>
    match db.find? (fun kv => ioc_type = "ip" ∧ ip_similarity value kv.1 > 0.8) with
    | some kv => ⟨true, kv.2.threat_level, 0.7⟩
    | none => ⟨false, "", 0.0⟩

/-- `ZeroTrustEngine._calculate_risk_score`: the four risk factors (0.8
replaces `1 - confidence` for an unverified identity, 0.7 replaces
`1 - score` for an untrusted device; the threat factor keys on the
matched indicator's threat level), the weighted sum via
`zip(weights, risk_factors)` and the final clamp to [0, 1]. -/
def calculate_risk_score (iv : IdentityVerification) (dt : DeviceTrust)
    (ba : AnomalyResult) (tc : ThreatCheck) : ℚ :=
  let identity_risk : ℚ := if ¬ iv.verified then 0.8 else 1 - iv.confidence
  let device_risk : ℚ := if ¬ dt.trusted then 0.7 else 1 - dt.score
  let behavior_risk : ℚ := ba.risk_score
  let threat_risk : ℚ :=
    if tc.is_ioc then
      if tc.threat_level = "high" then 0.9
      else if tc.threat_level = "medium" then 0.6
      else 0.3
    else 0.0
  let weights : List ℚ := [0.2, 0.4, 0.3, 0.1]
  let risk_factors : List ℚ := [identity_risk, device_risk, behavior_risk, threat_risk]
  let risk_score := (List.zipWith (fun w r => w * r) weights risk_factors).sum
  min 1 (max 0 risk_score)

/-- `ZeroTrustEngine._update_device_behavior_history`: append the
context to the device's history (created on demand) and keep the last
10 entries. -/
def update_device_behavior_history (st : EngineState) (device_id : String)
    (ctx : Ctx) : EngineState :=
  let old := (alGet st.device_behavior_history device_id).getD []
  let appended := old ++ [ctx]
  let capped := appended.drop (appended.length - 10)
  { st with
    device_behavior_history := alSet st.device_behavior_history device_id capped }

/-- The result of `evaluate_access_request` read by the claims: the risk
score and the decision (the logged security event and its random id
carry no claim content). -/
structure EvalResult : Type where
  risk_score : ℚ
  decision : Decision
deriving DecidableEq

/-- `ZeroTrustEngine.evaluate_access_request`: verify identity, assess
the device, analyse behaviour, check threat intelligence, combine into
the risk score, apply the policies, and update the device behaviour
history (the only store the method writes; logging and the fire-and-
forget SOAR trigger do not touch the scoring state).  Returns the
result together with the successor state. -/
def evaluate_access_request (st : EngineState) (req : AccessRequest) :
    EvalResult × EngineState :=
  let iv := verify_identity st req.user_id req.context
  let dt := assess_device_trust st req.context.device_id req.context
  let ba := detect_anomalies st req.user_id
  let tc := check_ioc st.ioc_database req.context.source_ip "ip"
  let risk := calculate_risk_score iv dt ba tc
  let decision := apply_access_policies st.access_policies req risk
  (⟨risk, decision⟩, update_device_behavior_history st req.context.device_id req.context)

/-- The risk formula as the specification states it (for comparison with
`calculate_risk_score`): weighted sum, weights 0.2/0.4/0.3/0.1, of the
factors `1 - identityConfidence`, `1 - deviceTrustScore`,
`behaviorAnomalyScore` and the threat factor — with no special casing of
unverified identities or untrusted devices.  The threat factor is taken
to key on the matched indicator's threat level exactly as the code does,
so that any disagreement with `calculate_risk_score` isolates the
identity/device special cases. -/
def spec_risk_score (iv : IdentityVerification) (dt : DeviceTrust)
    (ba : AnomalyResult) (tc : ThreatCheck) : ℚ :=
  let threat_factor : ℚ :=
    if tc.is_ioc then
      if tc.threat_level = "high" then 0.9
      else if tc.threat_level = "medium" then 0.6
      else 0.3
    else 0.0
  0.2 * (1 - iv.confidence) + 0.4 * (1 - dt.score) +
    0.3 * ba.risk_score + 0.1 * threat_factor

/-- A behaviour sample carrying only a login time, for the profile
bound/FIFO statements. -/
def login_sample (x : ℚ) : BehaviorData :=
  ⟨some x, none, none, none, none, none⟩

/-- All six histories of a profile respect the 1000-entry bound. -/
def ProfileBounded (p : Profile) : Prop :=
  p.login_times.length ≤ 1000 ∧ p.access_patterns.length ≤ 1000 ∧
  p.device_usage.length ≤ 1000 ∧ p.location_patterns.length ≤ 1000 ∧
  p.resource_access.length ≤ 1000 ∧ p.session_durations.length ≤ 1000

/-- Concrete context for the repeated-evaluation experiment: registered
user `u1` on registered device `d1` from an unknown IP. -/
def c3Ctx : Ctx :=
  { user_id := "u1", device_id := "d1", source_ip := "10.0.0.1"
    location := (0, 0), network := "wifi", hour := 9, totp_code := none }

/-- Concrete access request for the repeated-evaluation experiment. -/
def c3Req : AccessRequest :=
  { request_id := "req1", user_id := "u1", resource := "res"
    action := "read", context := c3Ctx, session_id := "s1" }

/-- Concrete engine state for the repeated-evaluation experiment:
one registered user without MFA, one fully compliant device whose
expected location matches the request, no behaviour profiles, no threat
indicators, the default policies, and an empty device behaviour
history. -/
def c3State : EngineState :=
  { user_registry :=
      [("u1", ⟨"u1@example.com", "user", some false, false, "secret1"⟩)]
    device_registry :=
      [("d1", ⟨true, true, true, true, [(0, 0)]⟩)]
    user_profiles := []
    ioc_database := []
    access_policies := default_policies
    device_behavior_history := []
    required_for_admins := false
    totpOracle := fun _ _ => false
    anomalyDecision := fun _ => 0
    anomalyPredict := fun _ => false }

/-- Concrete context of the compliant-admin scenario: admin user with a
TOTP code on a fully compliant device at its expected location. -/
def c7Ctx : Ctx :=
  { user_id := "admin1", device_id := "dev1", source_ip := "192.168.1.100"
    location := (40, -74), network := "corporate", hour := 10
    totp_code := some "123456" }

/-- Concrete access request of the compliant-admin scenario. -/
def c7Req : AccessRequest :=
  { request_id := "req7", user_id := "admin1", resource := "sensitive_data"
    action := "read", context := c7Ctx, session_id := "s7" }

/-- Concrete engine state of the compliant-admin scenario: the admin
user has MFA enabled and the TOTP oracle accepts the presented code
(password + TOTP verified), the device is fully compliant at its
expected location, the user's stored behaviour profile matches the
baseline (detector decision value 1, i.e. anomaly risk 0), and there is
no threat-intelligence match. -/
def c7State : EngineState :=
  { user_registry :=
      [("admin1", ⟨"admin@example.com", "admin", some true, true, "sec7"⟩)]
    device_registry :=
      [("dev1", ⟨true, true, true, true, [(40, -74)]⟩)]
    user_profiles := [("admin1", ⟨[9, 10], [], [], [(40, -74)], [], [60]⟩)]
    ioc_database := []
    access_policies := default_policies
    device_behavior_history := []
    required_for_admins := false
    totpOracle := fun _ _ => true
    anomalyDecision := fun _ => 1
    anomalyPredict := fun _ => false }

/-- Minimal engine state with no stored behaviour profiles. -/
def c5State : EngineState :=
  { user_registry := []
    device_registry := []
    user_profiles := []
    ioc_database := []
    access_policies := default_policies
    device_behavior_history := []
    required_for_admins := false
    totpOracle := fun _ _ => false
    anomalyDecision := fun _ => 0
    anomalyPredict := fun _ => false }

/-- The repeated-evaluation state with the request's context already in
the device behaviour history (so a further append does not move the
device-behaviour score). -/
def c3wState : EngineState :=
  { c3State with device_behavior_history := [("d1", [c3Ctx])] }

/-- Lookup distributes over the append underlying `dict_merge`. -/
theorem alGet_append {α : Type} (a b : List (String × α)) (k : String) :
    alGet (a ++ b) k = ((alGet a k).rec (alGet b k) (fun v => some v) : Option α) := by
  induction a with
  | nil => simp [alGet]
  | cons hd tl ih =>
    obtain ⟨k', v⟩ := hd
    by_cases hk : k' = k <;> simp [alGet, hk, ih]

/-- Lookup after an association-list update. -/
theorem alGet_alSet {α : Type} (d : List (String × α)) (k : String) (v : α)
    (k' : String) :
    alGet (alSet d k v) k' = if k = k' then some v else alGet d k' := by
  induction d with
  | nil => simp [alGet, alSet]
  | cons hd tl ih =>
    obtain ⟨k₀, v₀⟩ := hd
    by_cases h0 : k₀ = k
    · subst h0
      by_cases h1 : k₀ = k' <;> simp [alGet, alSet, h1]
    · have h0' : ¬ k = k₀ := fun h => h0 h.symm
      by_cases h1 : k₀ = k'
      · subst h1
        simp [alGet, alSet, h0, h0']
      · simp [alGet, alSet, h0, h1, ih]

/-- C9: for every combination of identity, device, behaviour and threat
inputs, the risk score returned by `_calculate_risk_score` lies in the
closed interval [0, 1]. -/
theorem calculate_risk_score_in_unit_interval
    (iv : IdentityVerification) (dt : DeviceTrust) (ba : AnomalyResult)
    (tc : ThreatCheck) :
    0 ≤ calculate_risk_score iv dt ba tc ∧ calculate_risk_score iv dt ba tc ≤ 1 := by
  simp only [calculate_risk_score]
  constructor
  · exact le_min (by norm_num) (le_max_left 0 _)
  · exact min_le_left 1 _

/-- C1 counterexample: at the reachable inputs where the identity check
failed with confidence 0.6 (exactly what `_verify_identity` returns when
only the MFA factor fails) and a fully trusted device, the code's risk
score is 0.2·0.8 = 0.16 whereas the spec's weighted-sum formula gives
0.2·(1−0.6) = 0.08 — the claim's formula does not hold for every
identity-verification result. -/
theorem calculate_risk_score_ne_spec_formula :
    calculate_risk_score ⟨false, 0.6⟩ ⟨true, 1⟩ ⟨false, 0⟩ ⟨false, "", 0⟩ ≠
      spec_risk_score ⟨false, 0.6⟩ ⟨true, 1⟩ ⟨false, 0⟩ ⟨false, "", 0⟩ := by
  norm_num [calculate_risk_score, spec_risk_score]


/-- Closed form of `_calculate_risk_score`: the clamped weighted sum of
the four factors actually computed by the code. -/
theorem calculate_risk_score_closed_form (iv : IdentityVerification)
    (dt : DeviceTrust) (ba : AnomalyResult) (tc : ThreatCheck) :
    calculate_risk_score iv dt ba tc =
      min 1 (max 0
        (0.2 * (if iv.verified then 1 - iv.confidence else 0.8) +
         0.4 * (if dt.trusted then 1 - dt.score else 0.7) +
         0.3 * ba.risk_score +
         0.1 * (if tc.is_ioc then
                  (if tc.threat_level = "high" then 0.9
                   else if tc.threat_level = "medium" then 0.6 else 0.3)
                else 0))) := by
  simp only [calculate_risk_score, List.zipWith, List.sum_cons, List.sum_nil]
  norm_num
  congr 1
  congr 1
  cases hv : iv.verified <;> cases ht : dt.trusted <;> simp [hv, ht] <;> ring

/-- C1 (amended): the risk score is the weighted sum, weights 0.2
(identity), 0.4 (device), 0.3 (behaviour), 0.1 (threat), of the four
risk factors — where the identity factor is `1 - identityConfidence`
only for a verified identity and is the constant 0.8 otherwise, the
device factor is `1 - deviceTrustScore` only for a trusted device and is
the constant 0.7 otherwise, the behaviour factor is the anomaly risk
score and the threat factor is 0.9/0.6 for a matched indicator of
threat level high/medium, 0.3 for any other matched indicator (including
low) and 0 when there is no match; the final clamp to [0, 1] is
redundant whenever the confidence, score and behaviour inputs lie in
[0, 1]. -/
theorem calculate_risk_score_weighted_sum
    (iv : IdentityVerification) (dt : DeviceTrust) (ba : AnomalyResult)
    (tc : ThreatCheck)
    (hc0 : 0 ≤ iv.confidence) (hc1 : iv.confidence ≤ 1)
    (hs0 : 0 ≤ dt.score) (hs1 : dt.score ≤ 1)
    (hb0 : 0 ≤ ba.risk_score) (hb1 : ba.risk_score ≤ 1) :
    calculate_risk_score iv dt ba tc =
      0.2 * (if iv.verified then 1 - iv.confidence else 0.8) +
      0.4 * (if dt.trusted then 1 - dt.score else 0.7) +
      0.3 * ba.risk_score +
      0.1 * (if tc.is_ioc then
               (if tc.threat_level = "high" then 0.9
                else if tc.threat_level = "medium" then 0.6 else 0.3)
             else 0) := by
  rw [calculate_risk_score_closed_form]
  have hI0 : (0:ℚ) ≤ (if iv.verified then 1 - iv.confidence else 0.8) := by
    split <;> [linarith; norm_num]
  have hI1 : (if iv.verified then 1 - iv.confidence else 0.8) ≤ 1 := by
    split <;> [linarith; norm_num]
  have hD0 : (0:ℚ) ≤ (if dt.trusted then 1 - dt.score else 0.7) := by
    split <;> [linarith; norm_num]
  have hD1 : (if dt.trusted then 1 - dt.score else 0.7) ≤ 1 := by
    split <;> [linarith; norm_num]
  have hT0 : (0:ℚ) ≤ (if tc.is_ioc then
      (if tc.threat_level = "high" then (0.9:ℚ)
       else if tc.threat_level = "medium" then 0.6 else 0.3) else 0) := by
    split_ifs <;> norm_num
  have hT1 : (if tc.is_ioc then
      (if tc.threat_level = "high" then (0.9:ℚ)
       else if tc.threat_level = "medium" then 0.6 else 0.3) else 0) ≤ 0.9 := by
    split_ifs <;> norm_num
  rw [max_eq_right (by linarith), min_eq_right (by linarith)]

/-- Witness for the amended C1 statement at a concrete input (verified
identity with confidence 1, trusted device with score 1, behaviour risk
1, no threat match). -/
theorem calculate_risk_score_weighted_sum_witness :
    (0 ≤ (1:ℚ)) ∧ ((1:ℚ) ≤ 1) ∧
    calculate_risk_score ⟨true, 1⟩ ⟨true, 1⟩ ⟨false, 1⟩ ⟨false, "", 0⟩ = 3/10 := by
  refine ⟨zero_le_one, le_refl 1, ?_⟩
  have h := calculate_risk_score_weighted_sum ⟨true, 1⟩ ⟨true, 1⟩ ⟨false, 1⟩
    ⟨false, "", 0⟩ zero_le_one (le_refl 1) zero_le_one (le_refl 1)
    zero_le_one (le_refl 1)
  rw [h]
  norm_num

/-- C5 counterexample: for the user `alice`, who has no stored behaviour
profile, `detect_anomalies` returns risk score 0.0, not the neutral 0.5
the specification requires. -/
theorem detect_anomalies_no_profile_ne_half :
    (detect_anomalies c5State "alice").risk_score ≠ 0.5 := by
  norm_num [detect_anomalies, c5State, alGet]

/-- C5 (amended): for every user id with no stored behaviour profile,
scoring that user's current activity yields anomaly risk score 0.0 with
no anomaly flagged — absence of history is treated as no risk, not as
the neutral 0.5. -/
theorem detect_anomalies_no_profile
    (st : EngineState) (user_id : String)
    (h : alGet st.user_profiles user_id = none) :
    detect_anomalies st user_id = ⟨false, 0⟩ := by
  simp [detect_anomalies, h]
  norm_num

/-- Witness for the amended C5 statement: `alice` has no profile in the
empty store and scores 0.0. -/
theorem detect_anomalies_no_profile_witness :
    alGet c5State.user_profiles "alice" = none ∧
    detect_anomalies c5State "alice" = ⟨false, 0⟩ :=
  ⟨rfl, detect_anomalies_no_profile c5State "alice" rfl⟩

/-- C6 counterexample: a step configured with `severity = "critical"`
merged with an incident context carrying `severity = "low"` hands the
actuator `severity = "low"` — the incident-context value, not the
step-configured one, prevails on a key collision. -/
theorem step_params_do_not_take_precedence :
    alGet (step_merged_params
        ⟨"Immediate Response", "send_alert",
          [("severity", PValue.str "critical")], some false⟩
        [("severity", PValue.str "low")]) "severity" ≠
      some (PValue.str "critical") ∧
    alGet [("severity", PValue.str "critical")] "severity" =
      some (PValue.str "critical") ∧
    alGet [("severity", PValue.str "low")] "severity" =
      some (PValue.str "low") ∧
    alGet (step_merged_params
        ⟨"Immediate Response", "send_alert",
          [("severity", PValue.str "critical")], some false⟩
        [("severity", PValue.str "low")]) "severity" =
      some (PValue.str "low") := by
  refine ⟨?_, rfl, rfl, rfl⟩
  decide

/-- C6 (amended): the parameters passed to the actuator are the merge of
the step-configured parameters with the incident context, and on any key
present in both, the incident-context value takes precedence over the
step-configured value (`{**parameters, **incident_data}` lets the
second dictionary win); a key absent from the incident context keeps its
step-configured value. -/
theorem step_merged_params_incident_precedence
    (step : PlaybookStep) (incident_data : Params) (k : String) :
    (∀ v, alGet incident_data k = some v →
      alGet (step_merged_params step incident_data) k = some v) ∧
    (alGet incident_data k = none →
      alGet (step_merged_params step incident_data) k = alGet step.parameters k) := by
  constructor
  · intro v hv
    simp [step_merged_params, dict_merge, alGet_append, hv]
  · intro hn
    simp [step_merged_params, dict_merge, alGet_append, hn]

/-- Witness for the amended C6 statement: the colliding key takes the
incident value, the non-colliding key keeps the step value. -/
theorem step_merged_params_incident_precedence_witness :
    (alGet [("severity", PValue.str "low")] "severity" =
      some (PValue.str "low")) ∧
    (alGet (step_merged_params
        ⟨"Immediate Response", "send_alert",
          [("severity", PValue.str "critical")], some false⟩
        [("severity", PValue.str "low")]) "severity" =
      some (PValue.str "low")) ∧
    (alGet [("severity", PValue.str "low")] "message" = none) ∧
    (alGet (step_merged_params
        ⟨"Immediate Response", "send_alert",
          [("severity", PValue.str "critical")], some false⟩
        [("severity", PValue.str "low")]) "message" =
      alGet [("severity", PValue.str "critical")] "message") :=
  ⟨rfl,
   (step_merged_params_incident_precedence _ _ "severity").1 _ rfl,
   rfl,
   (step_merged_params_incident_precedence
      ⟨"Immediate Response", "send_alert",
        [("severity", PValue.str "critical")], some false⟩
      [("severity", PValue.str "low")] "message").2 rfl⟩

/-- Helper: `overall_success` is false exactly when some recorded step
result is a failure. -/
theorem execute_playbook_overall_success_iff
    (steps : List PlaybookStep) (incident_data : Params) :
    (execute_playbook steps incident_data).overall_success = false ↔
      ∃ r ∈ (execute_playbook steps incident_data).results, r.success = false := by
  simp [execute_playbook, List.all_eq_true]

/-- C4: a failing step with `stop_on_failure` true (also the default
when the flag is absent) aborts the run at once — the failing step's
result is the last one recorded and `overall_success` is false, so a
playbook whose first step fails that way records exactly one result; a
failing step with the flag false is recorded and the remaining steps
still run; and `overall_success` is false exactly when at least one
recorded step failed. -/
theorem execute_playbook_stop_on_failure :
    (∀ (s : PlaybookStep) (rest : List PlaybookStep) (incident_data : Params),
      (execute_step s incident_data).success = false →
      s.stop_on_failure.getD true = true →
      (execute_playbook (s :: rest) incident_data).results =
        [execute_step s incident_data] ∧
      (execute_playbook (s :: rest) incident_data).overall_success = false) ∧
    (∀ (s : PlaybookStep) (rest : List PlaybookStep) (incident_data : Params),
      (execute_step s incident_data).success = false →
      s.stop_on_failure.getD true = false →
      (execute_playbook (s :: rest) incident_data).results =
        execute_step s incident_data ::
          (execute_playbook rest incident_data).results) ∧
    (∀ (steps : List PlaybookStep) (incident_data : Params),
      (execute_playbook steps incident_data).overall_success = false ↔
        ∃ r ∈ (execute_playbook steps incident_data).results,
          r.success = false) := by
  refine ⟨?_, ?_, ?_⟩
  · intro s rest incident_data hfail hstop
    have hr : run_steps (s :: rest) incident_data = [execute_step s incident_data] := by
      simp [run_steps, hfail, hstop]
    constructor
    · simp [execute_playbook, hr]
    · simp [execute_playbook, hr, hfail]
  · intro s rest incident_data hfail hstop
    have hr : run_steps (s :: rest) incident_data =
        execute_step s incident_data :: run_steps rest incident_data := by
      simp [run_steps, hfail, hstop]
    simp [execute_playbook, hr]
  · intro steps incident_data
    exact execute_playbook_overall_success_iff steps incident_data

/-- Witness for C4: a `block_ip` step without a source IP fails; with
the flag absent (default true) a two-step playbook records exactly the
failing result and is unsuccessful; with the flag false the second step
still runs. -/
theorem execute_playbook_stop_on_failure_witness :
    ((execute_step ⟨"A", "block_ip", [], none⟩ []).success = false) ∧
    ((none : Option Bool).getD true = true) ∧
    ((execute_playbook [⟨"A", "block_ip", [], none⟩,
        ⟨"B", "send_alert", [], none⟩] []).results =
      [execute_step ⟨"A", "block_ip", [], none⟩ []]) ∧
    ((execute_playbook [⟨"A", "block_ip", [], none⟩,
        ⟨"B", "send_alert", [], none⟩] []).overall_success = false) ∧
    ((some false).getD true = false) ∧
    ((execute_playbook [⟨"A", "block_ip", [], some false⟩,
        ⟨"B", "send_alert", [], none⟩] []).results =
      execute_step ⟨"A", "block_ip", [], some false⟩ [] ::
        (execute_playbook [⟨"B", "send_alert", [], none⟩] []).results) :=
  ⟨by decide, rfl,
   (execute_playbook_stop_on_failure.1 ⟨"A", "block_ip", [], none⟩
      [⟨"B", "send_alert", [], none⟩] [] (by decide) rfl).1,
   (execute_playbook_stop_on_failure.1 ⟨"A", "block_ip", [], none⟩
      [⟨"B", "send_alert", [], none⟩] [] (by decide) rfl).2,
   rfl,
   execute_playbook_stop_on_failure.2.1 ⟨"A", "block_ip", [], some false⟩
      [⟨"B", "send_alert", [], none⟩] [] (by decide) rfl⟩

instance : IsTotal Policy (fun a b => a.priority ≤ b.priority) :=
  ⟨fun a b => Int.le_total a.priority b.priority⟩

instance : IsTrans Policy (fun a b => a.priority ≤ b.priority) :=
  ⟨fun _ _ _ h1 h2 => le_trans h1 h2⟩

/-- In a list sorted ascending by priority, `find?` returns a hit whose
priority is minimal among all hits. -/
theorem find_sorted_min (pr : Policy → Bool) :
    ∀ (l : List Policy),
      List.Sorted (fun a b : Policy => a.priority ≤ b.priority) l →
      ∀ x ∈ l, pr x = true →
      ∃ w, l.find? pr = some w ∧ pr w = true ∧ w ∈ l ∧
        ∀ q ∈ l, pr q = true → w.priority ≤ q.priority := by
  intro l
  induction l with
  | nil => intro _ x hx; simp at hx
  | cons a t ih =>
    intro hs x hx hpx
    rw [List.sorted_cons] at hs
    obtain ⟨ha, hst⟩ := hs
    by_cases hpa : pr a = true
    · refine ⟨a, ?_, hpa, List.mem_cons_self a t, ?_⟩
      · rw [List.find?_cons_of_pos _ hpa]
      · intro q hq hpq
        rcases List.mem_cons.mp hq with h | h
        · subst h; exact le_refl _
        · exact ha q h
    · have hpa' : ¬ pr a = true := hpa
      have hxt : x ∈ t := by
        rcases List.mem_cons.mp hx with h | h
        · subst h; exact absurd hpx hpa'
        · exact h
      obtain ⟨w, hfind, hpw, hwmem, hbound⟩ := ih hst x hxt hpx
      refine ⟨w, ?_, hpw, List.mem_cons_of_mem a hwmem, ?_⟩
      · rw [List.find?_cons_of_neg _ hpa']; exact hfind
      · intro q hq hpq
        rcases List.mem_cons.mp hq with h | h
        · subst h; exact absurd hpq hpa'
        · exact hbound q h hpq

/-- `_apply_access_policies` returns the decision of a matching policy
of minimal priority number among the matching policies. -/
theorem apply_access_policies_min_match
    (ps : List Policy) (req : AccessRequest) (risk : ℚ) (p : Policy)
    (hmem : p ∈ ps) (hmatch : policy_matches p req risk = true) :
    ∃ w, w ∈ ps ∧ policy_matches w req risk = true ∧
      (∀ q ∈ ps, policy_matches q req risk = true → w.priority ≤ q.priority) ∧
      apply_access_policies ps req risk = ⟨w.actions.headI, w.key⟩ := by
  have hperm :=
    List.perm_insertionSort (fun a b : Policy => a.priority ≤ b.priority) ps
  have hsorted :=
    List.sorted_insertionSort (fun a b : Policy => a.priority ≤ b.priority) ps
  have hmem' : p ∈ ps.insertionSort (fun a b => a.priority ≤ b.priority) :=
    hperm.mem_iff.mpr hmem
  obtain ⟨w, hfind, hpw, hwmem, hbound⟩ :=
    find_sorted_min (fun q => policy_matches q req risk) _ hsorted p hmem' hmatch
  refine ⟨w, hperm.mem_iff.mp hwmem, hpw, ?_, ?_⟩
  · intro q hq hpq
    exact hbound q (hperm.mem_iff.mpr hq) hpq
  · simp only [apply_access_policies]
    rw [hfind]

/-- C2: policy evaluation considers the policies sorted ascending by
priority and returns the first action of the first fully satisfied
policy — equivalently, of a satisfied policy whose priority number is
minimal among all satisfied policies; in particular, when exactly two
policies match the request, the action of the one with the lower
priority number is returned. -/
theorem apply_access_policies_priority_order :
    (∀ (ps : List Policy) (req : AccessRequest) (risk : ℚ) (p : Policy),
      p ∈ ps → policy_matches p req risk = true →
      ∃ w, w ∈ ps ∧ policy_matches w req risk = true ∧
        (∀ q ∈ ps, policy_matches q req risk = true → w.priority ≤ q.priority) ∧
        apply_access_policies ps req risk = ⟨w.actions.headI, w.key⟩) ∧
    (∀ (ps : List Policy) (req : AccessRequest) (risk : ℚ) (p q : Policy),
      p ∈ ps → q ∈ ps →
      policy_matches p req risk = true → policy_matches q req risk = true →
      p.priority < q.priority →
      (∀ x ∈ ps, policy_matches x req risk = true → x = p ∨ x = q) →
      apply_access_policies ps req risk = ⟨p.actions.headI, p.key⟩) := by
  constructor
  · intro ps req risk p hmem hmatch
    exact apply_access_policies_min_match ps req risk p hmem hmatch
  · intro ps req risk p q hp hq hmp hmq hlt honly
    obtain ⟨w, hwmem, hwm, hbound, happ⟩ :=
      apply_access_policies_min_match ps req risk p hp hmp
    rcases honly w hwmem hwm with rfl | rfl
    · exact happ
    · exfalso
      have hle := hbound p hp hmp
      omega

/-- Witness for C2: two condition-free policies with priorities 1 and 2
both match; the decision is the priority-1 policy's action. -/
theorem apply_access_policies_priority_order_witness :
    ((⟨"a", "A", [], ["allow"], 1⟩ : Policy) ∈
      [(⟨"a", "A", [], ["allow"], 1⟩ : Policy), ⟨"b", "B", [], ["deny"], 2⟩]) ∧
    (policy_matches ⟨"a", "A", [], ["allow"], 1⟩
      ⟨"r", "u", "res", "read", ⟨"u", "d", "ip", (0, 0), "n", 0, none⟩, "s"⟩
      0 = true) ∧
    (policy_matches ⟨"b", "B", [], ["deny"], 2⟩
      ⟨"r", "u", "res", "read", ⟨"u", "d", "ip", (0, 0), "n", 0, none⟩, "s"⟩
      0 = true) ∧
    ((1 : Int) < 2) ∧
    apply_access_policies
      [⟨"a", "A", [], ["allow"], 1⟩, ⟨"b", "B", [], ["deny"], 2⟩]
      ⟨"r", "u", "res", "read", ⟨"u", "d", "ip", (0, 0), "n", 0, none⟩, "s"⟩
      0 = ⟨"allow", "a"⟩ := by
  refine ⟨List.mem_cons_self _ _, rfl, rfl, by norm_num, ?_⟩
  exact apply_access_policies_priority_order.2
    [⟨"a", "A", [], ["allow"], 1⟩, ⟨"b", "B", [], ["deny"], 2⟩]
    ⟨"r", "u", "res", "read", ⟨"u", "d", "ip", (0, 0), "n", 0, none⟩, "s"⟩
    0 ⟨"a", "A", [], ["allow"], 1⟩ ⟨"b", "B", [], ["deny"], 2⟩
    (List.mem_cons_self _ _)
    (List.mem_cons_of_mem _ (List.mem_cons_self _ _))
    rfl rfl (by norm_num)
    (fun x hx _ => by
      rcases List.mem_cons.mp hx with h | h
      · exact Or.inl h
      · exact Or.inr (List.mem_singleton.mp h))

/-- The truncation step never leaves more than 1000 entries. -/
theorem cap1000_length_le {α : Type} (l : List α) : (cap1000 l).length ≤ 1000 := by
  simp only [cap1000]
  split
  · rename_i h
    simp only [List.length_drop]
    omega
  · rename_i h
    omega

/-- The truncation step always equals dropping down to the last 1000
entries (a no-op below the bound). -/
theorem cap1000_eq_drop {α : Type} (l : List α) :
    cap1000 l = l.drop (l.length - 1000) := by
  simp only [cap1000]
  split
  · rfl
  · rename_i h
    have h0 : l.length - 1000 = 0 := by omega
    rw [h0, List.drop_zero]

/-- Appending to a full (length-1000) history and truncating evicts
exactly the oldest entry. -/
theorem cap1000_full_append {α : Type} (l : List α) (x : α)
    (h : l.length = 1000) :
    cap1000 (l ++ [x]) = l.drop 1 ++ [x] := by
  have hlen : (l ++ [x]).length = 1001 := by simp [h]
  simp only [cap1000, hlen]
  rw [if_pos (by norm_num : (1001 : ℕ) > 1000)]
  have h1 : (1001 - 1000 : ℕ) = 1 := rfl
  rw [h1]
  exact List.drop_append_of_le_length (show (1 : ℕ) ≤ l.length by omega)

/-- One append-then-truncate step on a suffix-of-history list advances
the suffix window by one. -/
theorem cap1000_drop_append {α : Type} (l : List α) (x : α) :
    cap1000 (l.drop (l.length - 1000) ++ [x]) =
      (l ++ [x]).drop ((l ++ [x]).length - 1000) := by
  by_cases hk : 1000 ≤ l.length
  · have h1 : (l.drop (l.length - 1000)).length = 1000 := by
      simp only [List.length_drop]
      omega
    rw [cap1000_full_append _ _ h1]
    rw [List.drop_drop]
    have h2 : (l ++ [x]).length = l.length + 1 := by simp
    rw [h2]
    rw [List.drop_append_of_le_length (show l.length + 1 - 1000 ≤ l.length by omega)]
    have h3 : l.length - 1000 + 1 = l.length + 1 - 1000 := by omega
    rw [h3]
  · have h0 : l.length - 1000 = 0 := by omega
    have h1 : (l ++ [x]).length - 1000 = 0 := by
      simp only [List.length_append, List.length_singleton]
      omega
    rw [h0, h1, List.drop_zero, List.drop_zero]
    simp only [cap1000]
    rw [if_neg (by simp only [List.length_append, List.length_singleton]; omega)]

/-- One login-only update of an existing profile: the login history
gets the sample appended and every history truncated. -/
theorem update_user_profile_login_step (profiles : List (String × Profile))
    (uid : String) (P : Profile) (h : alGet profiles uid = some P) (x : ℚ) :
    alGet (update_user_profile profiles uid (login_sample x)) uid =
      some ⟨cap1000 (P.login_times ++ [x]), cap1000 P.access_patterns,
            cap1000 P.device_usage, cap1000 P.location_patterns,
            cap1000 P.resource_access, cap1000 P.session_durations⟩ := by
  simp only [update_user_profile, login_sample, h, Option.getD_some, optAppend]
  rw [alGet_alSet, if_pos rfl]

/-- Folding login-only updates over an empty store grows exactly the
user's login history, always kept to the last 1000 samples. -/
theorem fold_update_login (uid : String) :
    ∀ (xs : List ℚ), xs ≠ [] →
      alGet (xs.foldl (fun ps x => update_user_profile ps uid (login_sample x)) [])
          uid =
        some ⟨xs.drop (xs.length - 1000), [], [], [], [], []⟩ := by
  intro xs
  induction xs using List.reverseRecOn with
  | nil => intro h; exact absurd rfl h
  | append_singleton l x ih =>
    intro _
    rw [List.foldl_append]
    simp only [List.foldl_cons, List.foldl_nil]
    by_cases hl : l = []
    · subst hl
      simp [update_user_profile, login_sample, alGet, alSet, optAppend, cap1000,
        emptyProfile]
    · have ihh := ih hl
      rw [update_user_profile_login_step _ uid _ ihh x]
      dsimp only
      rw [cap1000_drop_append]
      norm_num [cap1000]

set_option maxRecDepth 100000 in
/-- C8: every history list of a profile kept by `update_user_profile`
stays within the 1000-entry bound (the updated user unconditionally,
other users by assumption); appending a sample to a full (length-1000)
history evicts exactly the oldest entry (FIFO); and appending N+1 = 1001
samples to the 1000-bounded history from scratch leaves length
min(N+1, 1000) = 1000 with the first sample gone. -/
theorem update_user_profile_bound_and_fifo :
    (∀ (profiles : List (String × Profile)) (uid : String) (bd : BehaviorData),
      (∀ u p, alGet profiles u = some p → ProfileBounded p) →
      ∀ u p', alGet (update_user_profile profiles uid bd) u = some p' →
        ProfileBounded p') ∧
    (∀ (profiles : List (String × Profile)) (uid : String) (p : Profile)
        (x : ℚ),
      alGet profiles uid = some p → p.login_times.length = 1000 →
      ∃ p', alGet (update_user_profile profiles uid (login_sample x)) uid =
          some p' ∧
        p'.login_times = p.login_times.drop 1 ++ [x]) ∧
    (∀ (xs : List ℚ) (uid : String), xs ≠ [] →
      ∃ p', alGet (xs.foldl
            (fun ps x => update_user_profile ps uid (login_sample x)) [])
          uid = some p' ∧
        p'.login_times = xs.drop (xs.length - 1000) ∧
        p'.login_times.length = min xs.length 1000 ∧
        (xs.length = 1001 → p'.login_times = xs.drop 1)) := by
  refine ⟨?_, ?_, ?_⟩
  · intro profiles uid bd hb u p' hget
    simp only [update_user_profile] at hget
    rw [alGet_alSet] at hget
    by_cases huid : uid = u
    · rw [if_pos huid] at hget
      cases Option.some.inj hget
      exact ⟨cap1000_length_le _, cap1000_length_le _, cap1000_length_le _,
        cap1000_length_le _, cap1000_length_le _, cap1000_length_le _⟩
    · rw [if_neg huid] at hget
      exact hb u p' hget
  · intro profiles uid p x hget hlen
    refine ⟨_, update_user_profile_login_step profiles uid p hget x, ?_⟩
    exact cap1000_full_append _ _ hlen
  · intro xs uid hne
    refine ⟨⟨xs.drop (xs.length - 1000), [], [], [], [], []⟩,
      fold_update_login uid xs hne, by rfl, ?_, ?_⟩
    · simp only [List.length_drop]
      omega
    · intro h
      rw [h]

set_option maxRecDepth 100000 in
/-- Witness for C8: the empty store is bounded and stays bounded after
an update; a full length-1000 history loses its head on the next
append; 1001 appends from scratch leave the first sample evicted. -/
theorem update_user_profile_bound_and_fifo_witness :
    (∀ u p, alGet ([] : List (String × Profile)) u = some p →
      ProfileBounded p) ∧
    (∃ p', alGet (update_user_profile [] "u" (login_sample 0)) "u" = some p' ∧
      ProfileBounded p') ∧
    (alGet [("u", (⟨List.replicate 1000 0, [], [], [], [], []⟩ : Profile))]
      "u" = some ⟨List.replicate 1000 0, [], [], [], [], []⟩) ∧
    ((⟨List.replicate 1000 0, [], [], [], [], []⟩ : Profile).login_times.length
      = 1000) ∧
    (∃ p', alGet (update_user_profile
          [("u", (⟨List.replicate 1000 0, [], [], [], [], []⟩ : Profile))]
          "u" (login_sample 7)) "u" = some p' ∧
      p'.login_times =
        (List.replicate 1000 (0 : ℚ)).drop 1 ++ [7]) ∧
    (List.replicate 1001 (0 : ℚ) ≠ []) ∧
    (∃ p', alGet ((List.replicate 1001 (0 : ℚ)).foldl
          (fun ps x => update_user_profile ps "u" (login_sample x)) [])
        "u" = some p' ∧
      p'.login_times = (List.replicate 1001 (0 : ℚ)).drop 1) := by
  have hempty : ∀ u p, alGet ([] : List (String × Profile)) u = some p →
      ProfileBounded p := by
    intro u p h
    simp [alGet] at h
  have hupd : alGet (update_user_profile [] "u" (login_sample 0)) "u" =
      some ⟨[0], [], [], [], [], []⟩ := by
    norm_num [update_user_profile, login_sample, alGet, alSet, optAppend,
      cap1000, emptyProfile]
  refine ⟨hempty, ?_, rfl, by simp, ?_, by simp, ?_⟩
  · exact ⟨⟨[0], [], [], [], [], []⟩, hupd,
      update_user_profile_bound_and_fifo.1 [] "u" (login_sample 0)
        hempty "u" ⟨[0], [], [], [], [], []⟩ hupd⟩
  · exact update_user_profile_bound_and_fifo.2.1
      [("u", ⟨List.replicate 1000 0, [], [], [], [], []⟩)] "u"
      ⟨List.replicate 1000 0, [], [], [], [], []⟩ 7 rfl (by simp)
  · obtain ⟨p', h1, h2, h3, h4⟩ :=
      update_user_profile_bound_and_fifo.2.2 (List.replicate 1001 (0 : ℚ))
        "u" (by simp)
    exact ⟨p', h1, h4 (by simp)⟩

/-- Device-trust assessment depends on the behaviour history only
through `_check_device_behavior`. -/
theorem assess_device_trust_congr (st1 st2 : EngineState) (device_id : String)
    (ctx : Ctx) (hreg : st1.device_registry = st2.device_registry)
    (hbeh : check_device_behavior st1 device_id ctx =
      check_device_behavior st2 device_id ctx) :
    assess_device_trust st1 device_id ctx = assess_device_trust st2 device_id ctx := by
  unfold assess_device_trust
  rw [hreg, hbeh]

/-- C3 (amended): evaluating a request mutates none of the user
registry, device registry, behaviour profiles, indicator database or
policy configuration — only the device behaviour history — and
re-evaluating the identical request immediately afterwards yields the
identical risk score and decision whenever the history append left the
device-behaviour score of the request unchanged; in general the append
can move that score, so back-to-back evaluations can differ (the
condition is sufficient, not necessary: an unregistered device, for
example, pins the device risk factor at 0.7 whatever that score is). -/
theorem evaluate_access_request_stores_and_stability
    (st : EngineState) (req : AccessRequest) :
    ((evaluate_access_request st req).2.user_registry = st.user_registry ∧
     (evaluate_access_request st req).2.device_registry = st.device_registry ∧
     (evaluate_access_request st req).2.user_profiles = st.user_profiles ∧
     (evaluate_access_request st req).2.ioc_database = st.ioc_database ∧
     (evaluate_access_request st req).2.access_policies = st.access_policies) ∧
    (check_device_behavior (evaluate_access_request st req).2
        req.context.device_id req.context =
      check_device_behavior st req.context.device_id req.context →
     (evaluate_access_request (evaluate_access_request st req).2 req).1 =
       (evaluate_access_request st req).1) := by
  constructor
  · exact ⟨rfl, rfl, rfl, rfl, rfl⟩
  · intro h
    have hdt : assess_device_trust (evaluate_access_request st req).2
        req.context.device_id req.context =
        assess_device_trust st req.context.device_id req.context :=
      assess_device_trust_congr _ _ _ _ rfl h
    show (⟨calculate_risk_score
        (verify_identity (evaluate_access_request st req).2 req.user_id req.context)
        (assess_device_trust (evaluate_access_request st req).2
          req.context.device_id req.context)
        (detect_anomalies (evaluate_access_request st req).2 req.user_id)
        (check_ioc (evaluate_access_request st req).2.ioc_database
          req.context.source_ip "ip"),
      apply_access_policies (evaluate_access_request st req).2.access_policies req
        (calculate_risk_score
          (verify_identity (evaluate_access_request st req).2 req.user_id req.context)
          (assess_device_trust (evaluate_access_request st req).2
            req.context.device_id req.context)
          (detect_anomalies (evaluate_access_request st req).2 req.user_id)
          (check_ioc (evaluate_access_request st req).2.ioc_database
            req.context.source_ip "ip"))⟩ : EvalResult) =
      (evaluate_access_request st req).1
    rw [hdt]
    rfl

/-- C3 counterexample: evaluating the identical request `c3Req` twice
in succession against otherwise unchanged stores (same user registry,
device registry, behaviour profiles and indicator database) yields risk
3/50 = 0.06 the first time and 0 the second time, because the first
evaluation appended the request context to the device behaviour history
and thereby raised `_check_device_behavior` from the neutral 0.5 to 1. -/
theorem evaluate_access_request_twice_differs :
    (evaluate_access_request (evaluate_access_request c3State c3Req).2
        c3Req).1.risk_score ≠
      (evaluate_access_request c3State c3Req).1.risk_score := by
  have h1 : (evaluate_access_request c3State c3Req).1.risk_score = 3 / 50 := by
    norm_num [evaluate_access_request, verify_identity, verify_mfa,
      assess_device_trust, check_device_compliance, check_device_location,
      check_device_behavior, detect_anomalies, check_ioc, calculate_risk_score,
      distSq, listMean, alGet, alSet, c3State, c3Req, c3Ctx,
      update_device_behavior_history, List.zipWith]
  have h2 : (evaluate_access_request (evaluate_access_request c3State c3Req).2
      c3Req).1.risk_score = 0 := by
    norm_num [evaluate_access_request, verify_identity, verify_mfa,
      assess_device_trust, check_device_compliance, check_device_location,
      check_device_behavior, detect_anomalies, check_ioc, calculate_risk_score,
      distSq, listMean, alGet, alSet, c3State, c3Req, c3Ctx,
      update_device_behavior_history, List.zipWith]
  rw [h1, h2]
  norm_num

/-- Witness for the amended C3 statement: with the request context
already in the device history, a further append leaves the
device-behaviour score at 1, and the two successive evaluations agree. -/
theorem evaluate_access_request_stores_and_stability_witness :
    (check_device_behavior (evaluate_access_request c3wState c3Req).2
        c3Req.context.device_id c3Req.context =
      check_device_behavior c3wState c3Req.context.device_id c3Req.context) ∧
    ((evaluate_access_request (evaluate_access_request c3wState c3Req).2
        c3Req).1 =
      (evaluate_access_request c3wState c3Req).1) := by
  have h : check_device_behavior (evaluate_access_request c3wState c3Req).2
      c3Req.context.device_id c3Req.context =
      check_device_behavior c3wState c3Req.context.device_id c3Req.context := by
    norm_num [evaluate_access_request, check_device_behavior,
      update_device_behavior_history, alGet, alSet, c3wState, c3State, c3Req,
      c3Ctx, listMean, distSq]
  exact ⟨h, (evaluate_access_request_stores_and_stability c3wState c3Req).2 h⟩

/-- C7 (divergence evidence): on the fully compliant admin scenario —
registered admin with password + accepted TOTP, fully compliant device
at its expected location, behaviour matching the stored baseline, no
threat-intelligence match — the computed risk score is 3/50 < 0.3, yet
the decision is the default policy's `challenge`, not `allow`: the
condition context built by `_evaluate_policy_conditions` carries no
`role` key, so the `admin_access` policy's `role == admin` condition can
never hold. -/
theorem compliant_admin_scenario_yields_challenge :
    (evaluate_access_request c7State c7Req).1.risk_score < 0.3 ∧
    (evaluate_access_request c7State c7Req).1.decision.action = "challenge" ∧
    (evaluate_access_request c7State c7Req).1.decision.policy = "default" := by
  have hs : ¬ (("123456" : String) = "") := by decide
  have hrisk : (evaluate_access_request c7State c7Req).1.risk_score = 3 / 50 := by
    norm_num [evaluate_access_request, verify_identity, verify_mfa,
      assess_device_trust, check_device_compliance, check_device_location,
      check_device_behavior, detect_anomalies, check_ioc, calculate_risk_score,
      distSq, listMean, alGet, alSet, c7State, c7Req, c7Ctx,
      update_device_behavior_history, List.zipWith, hs]
  have hdec : (evaluate_access_request c7State c7Req).1.decision =
      ⟨"challenge", "default"⟩ := by
    norm_num [evaluate_access_request, verify_identity, verify_mfa,
      assess_device_trust, check_device_compliance, check_device_location,
      check_device_behavior, detect_anomalies, check_ioc, calculate_risk_score,
      distSq, listMean, alGet, alSet, c7State, c7Req, c7Ctx,
      update_device_behavior_history, List.zipWith, hs, apply_access_policies,
      default_policies, List.insertionSort, List.orderedInsert, policy_matches,
      evaluate_policy_conditions, evaluate_condition, build_cond_context,
      List.find?]
  refine ⟨by rw [hrisk]; norm_num, by rw [hdec], by rw [hdec]⟩
